import Mathlib

/-!
Shallow embedding of the two signal-handling demonstration programs of this
repository: `signalfd.c` (kernel signal queue strategy, "Strategy A") and
`selfpipetrick.c` (self-pipe strategy, "Strategy B").

Operating-system calls (poll, read, pipe, fcntl, signalfd) are modelled by
their POSIX/Linux interface contracts: each run of a program is parametrised
by an environment holding the results the kernel hands to each call, and the
program text is translated call for call, branch for branch.
-/

/-- Numeric value of SIGINT on Linux. -/
def SIGINT : Nat := 2

/-- Numeric value of the EINTR errno on Linux. -/
def EINTR : Nat := 4

/-- EXIT_SUCCESS from stdlib.h. -/
def EXIT_SUCCESS : Nat := 0

/-- EXIT_FAILURE from stdlib.h. -/
def EXIT_FAILURE : Nat := 1

/-- Command value of F_SETFD (set the file DESCRIPTOR flags), from fcntl.h. -/
def F_SETFD : Nat := 2

/-- Command value of F_SETFL (set the file STATUS flags), from fcntl.h. -/
def F_SETFL : Nat := 4

/-- O_NONBLOCK file status flag, octal 04000 on Linux. -/
def O_NONBLOCK : Nat := 2048

/-- Per-descriptor flag state. POSIX keeps two distinct flag words for an open
descriptor: the file status flags (queried or replaced with F_GETFL or F_SETFL;
O_NONBLOCK lives here) and the file descriptor flags (queried or replaced with
F_GETFD or F_SETFD; FD_CLOEXEC lives here). -/
structure FdState where
  statusFlags : Nat
  fdFlags : Nat

/-- Semantics of the flag-setting fcntl commands, from the POSIX contract of
fcntl: F_SETFD replaces the file descriptor flags with the argument, F_SETFL
replaces the settable file status flags with the argument. -/
def fcntl_set (st : FdState) (cmd : Nat) (arg : Nat) : FdState :=
  if cmd = F_SETFD then { st with fdFlags := arg }
  else if cmd = F_SETFL then { st with statusFlags := arg }
  else st

/-- Flag state of the pipe read end after the setup of selfpipetrick.c line 46,
which runs fcntl(pipefds[0], F_SETFD, O_NONBLOCK). -/
def read_end_after_setup (st : FdState) : FdState :=
  fcntl_set st F_SETFD O_NONBLOCK

/-- Outcome of a poll(2) call on one descriptor, following the contract of
poll: a positive return (the descriptor is ready), a zero return (the timeout
elapsed with nothing ready), or a return of -1 with errno set. -/
inductive PollOutcome where
  | ready : PollOutcome
  | timeout : PollOutcome
  | error : Nat → PollOutcome

/-- Observable result of a terminated process: the lines printed on standard
output, the operation names passed to perror on standard error, and the exit
status. -/
structure ProcResult where
  out : List String
  err : List String
  exitCode : Nat

/-- Human-readable signal descriptions, modelling the glibc strsignal strings
for the signals relevant to these programs. -/
def strsignal (signo : Nat) : String :=
  if signo = 1 then "Hangup"
  else if signo = 2 then "Interrupt"
  else if signo = 3 then "Quit"
  else if signo = 9 then "Killed"
  else if signo = 15 then "Terminated"
  else "Unknown signal"

/-- Size in bytes of struct signalfd_siginfo on Linux, the fixed record size
that handle_signal in signalfd.c compares the read result against. -/
def sizeof_signalfd_siginfo : Int := 128

/-- Kernel data for one handle_signal call in signalfd.c: the return value of
the read call and the ssi_signo field of the record it filled in. -/
structure SigEventA where
  readRet : Int
  ssi_signo : Nat

/-- Translation of signalfd.c handle_signal (lines 34 to 49): read one
signalfd_siginfo record; if the read result differs from the full record size,
perror with the operation name and exit(1); otherwise extract ssi_signo, look
up its strsignal name, and print both on one line. The error side carries the
abort result; the ok side carries the printed line. -/
def handle_signal_A (ev : SigEventA) : Except ProcResult String :=
  if ev.readRet ≠ sizeof_signalfd_siginfo then
    Except.error ⟨[], ["read"], 1⟩
  else
    Except.ok ("Received signal " ++ toString ev.ssi_signo ++ " (" ++
      strsignal ev.ssi_signo ++ ")")

/-- Translation of the signalfd.c main loop (lines 27 to 31):
while (poll(&pollfd, 1, 5000) > 0) handle_signal(pollfd.fd);
falling out of the loop returns 0 from main with nothing printed. The schedule
lists the outcome of each successive poll call together with the kernel data
the consume step would see; none is returned when the schedule is exhausted
with the loop still running. -/
def runA : List (PollOutcome × SigEventA) → Option ProcResult
  | [] => none
  | (p, ev) :: rest =>
    match p with
    | PollOutcome.ready =>
      match handle_signal_A ev with
      | Except.error r => some r
      | Except.ok line => (runA rest).map fun r => ⟨line :: r.out, r.err, r.exitCode⟩
    | PollOutcome.timeout => some ⟨[], [], 0⟩
    | PollOutcome.error _ => some ⟨[], [], 0⟩

/-- Environment of one run of signalfd.c: the results the kernel gives to the
two setup calls and to every poll call. -/
structure EnvA where
  sigprocmaskRet : Int
  signalfdRet : Int
  schedule : List (PollOutcome × SigEventA)

/-- Translation of signalfd.c main (lines 11 to 31): build the one-signal mask,
call sigprocmask and signalfd without checking either result, then run the
poll loop. -/
def mainA (env : EnvA) : Option ProcResult :=
  let _mask : List Nat := [SIGINT]
  let _sigprocmask_result : Int := env.sigprocmaskRet
  let _signal_fd : Int := env.signalfdRet
  runA env.schedule

/-- Translation of selfpipetrick.c handle_signal (lines 30 to 38): read one
byte from the pipe read end; on any read count other than one, handle_err
aborts with the read diagnostic and EXIT_FAILURE; otherwise print the fixed
notification line. -/
def handle_signal_B (readRet : Int) : Except ProcResult String :=
  if readRet ≠ 1 then Except.error ⟨[], ["read"], EXIT_FAILURE⟩
  else Except.ok "Received signal"

/-- Translation of the selfpipetrick.c main loop (lines 64 to 86): poll with a
5000 ms timeout; case 0 prints the timeout message and exits EXIT_SUCCESS;
case -1 retries when errno is EINTR and otherwise aborts via handle_err with
the poll diagnostic; the default (a positive poll result) dispatches to
handle_signal. The schedule pairs each poll outcome with the read result the
consume step would see. -/
def runB : List (PollOutcome × Int) → Option ProcResult
  | [] => none
  | (p, readRet) :: rest =>
    match p with
    | PollOutcome.timeout =>
      some ⟨["Poll timed out without any signals"], [], EXIT_SUCCESS⟩
    | PollOutcome.error e =>
      if e = EINTR then runB rest
      else some ⟨[], ["poll"], EXIT_FAILURE⟩
    | PollOutcome.ready =>
      match handle_signal_B readRet with
      | Except.error r => some r
      | Except.ok line => (runB rest).map fun r => ⟨line :: r.out, r.err, r.exitCode⟩

/-- Setup-phase events of selfpipetrick.c main in program order: the write of
the global pipefds pair performed inside pipe(), each fcntl configuration
call, and the installation of signal_action by signal(SIGINT, signal_action),
recording the value of pipefds[1] (the descriptor the handler uses) at that
moment. -/
inductive SetupEvent where
  | pipefdsWritten : Int × Int → SetupEvent
  | fcntlCall : Int → SetupEvent
  | handlerInstalled : Int → SetupEvent

/-- Test for the event that writes the global pipefds pair. -/
def isPipefdsWrite : SetupEvent → Bool
  | SetupEvent.pipefdsWritten _ => true
  | _ => false

/-- Test for the handler-installation event. -/
def isHandlerInstall : SetupEvent → Bool
  | SetupEvent.handlerInstalled _ => true
  | _ => false

/-- Environment of one run of selfpipetrick.c: the result of pipe(), the
descriptor pair pipe() stores on success, the results of the two fcntl calls,
and the poll-loop schedule. -/
structure EnvB where
  pipeRet : Int
  pipeFds : Int × Int
  fcntl0Ret : Int
  fcntl1Ret : Int
  schedule : List (PollOutcome × Int)

/-- A run of selfpipetrick.c main: the recorded setup-phase history and the
process result (none when the schedule ran out with the loop still going). -/
structure MainBRun where
  events : List SetupEvent
  result : Option ProcResult

/-- Translation of selfpipetrick.c main (lines 40 to 87): pipe(pipefds) aborts
via handle_err("pipe") on failure and otherwise stores the descriptor pair in
the global pipefds array, the only write to that array in the program; each of
the two fcntl calls aborts via handle_err("fcntl") on failure; then
signal(SIGINT, signal_action) installs the handler (its result is not
checked) and the poll loop runs on read_fd = pipefds[0]. -/
def mainB (env : EnvB) : MainBRun :=
  if env.pipeRet = -1 then
    ⟨[], some ⟨[], ["pipe"], EXIT_FAILURE⟩⟩
  else
    let fds := env.pipeFds
    if env.fcntl0Ret = -1 then
      ⟨[SetupEvent.pipefdsWritten fds, SetupEvent.fcntlCall fds.1],
        some ⟨[], ["fcntl"], EXIT_FAILURE⟩⟩
    else if env.fcntl1Ret = -1 then
      ⟨[SetupEvent.pipefdsWritten fds, SetupEvent.fcntlCall fds.1,
          SetupEvent.fcntlCall fds.2],
        some ⟨[], ["fcntl"], EXIT_FAILURE⟩⟩
    else
      ⟨[SetupEvent.pipefdsWritten fds, SetupEvent.fcntlCall fds.1,
          SetupEvent.fcntlCall fds.2, SetupEvent.handlerInstalled fds.2],
        runB env.schedule⟩

/-- State of the self-pipe as the handler context sees it: the bytes currently
buffered in the pipe and the pipe capacity. -/
structure PipeState where
  buffered : List Nat
  capacity : Nat

/-- Contract of write(fd, buf, 1) on a pipe: when the pipe has room the byte
is appended and 1 is returned; otherwise the pipe is unchanged and -1 is
returned. -/
def pipe_write1 (st : PipeState) (byte : Nat) : PipeState × Int :=
  if st.buffered.length < st.capacity then
    ({ st with buffered := st.buffered ++ [byte] }, 1)
  else (st, -1)

/-- Translation of selfpipetrick.c signal_action (lines 22 to 28): the
installed handler writes the single zero byte to pipefds[1] and discards the
result of the write; its whole effect is the (attempted) write, so its type
returns only the pipe state: no output, no exit, no other state change. -/
def signal_action (st : PipeState) : PipeState :=
  (pipe_write1 st 0).1

/-- C1: evaluated on a fresh read-end descriptor with all flags clear, the
setup of selfpipetrick.c (fcntl with F_SETFD and argument O_NONBLOCK) leaves
the O_NONBLOCK file status flag clear, writing the value into the file
descriptor flags instead; the F_SETFL call the claim describes would have set
the status flag. -/
theorem c1_selfpipe_read_end_status_flag_not_set :
    (read_end_after_setup ⟨0, 0⟩).statusFlags &&& O_NONBLOCK = 0 ∧
    (read_end_after_setup ⟨0, 0⟩).fdFlags = O_NONBLOCK ∧
    (fcntl_set ⟨0, 0⟩ F_SETFL O_NONBLOCK).statusFlags &&& O_NONBLOCK = O_NONBLOCK := by
  refine ⟨?_, ?_, ?_⟩ <;> decide

/-- C2 counterexample: in signalfd.c the signalfd setup call failing (result
-1) does not abort the process; with the next poll timing out the program
attempts the wait, prints nothing, writes no diagnostic and exits 0, against
the claim that every failed setup operation in either program aborts with a
diagnostic and non-zero status before any wait. -/
theorem c2_signalfd_setup_failure_not_fatal :
    (⟨0, -1, [(PollOutcome.timeout, ⟨0, 0⟩)]⟩ : EnvA).signalfdRet = -1 ∧
    mainA ⟨0, -1, [(PollOutcome.timeout, ⟨0, 0⟩)]⟩ = some ⟨[], [], 0⟩ :=
  ⟨rfl, rfl⟩

/-- C2 (amended): in the self-pipe program, failure of pipe creation or of
either fcntl configuration call aborts at once with a diagnostic naming the
failing operation and exit status EXIT_FAILURE, whatever the poll schedule
holds (so before any wait is attempted); the kernel-signal-queue program
checks none of its setup calls. -/
theorem c2_selfpipe_setup_failures_fatal (env : EnvB) :
    (env.pipeRet = -1 → (mainB env).result = some ⟨[], ["pipe"], EXIT_FAILURE⟩) ∧
    (env.pipeRet ≠ -1 → env.fcntl0Ret = -1 →
      (mainB env).result = some ⟨[], ["fcntl"], EXIT_FAILURE⟩) ∧
    (env.pipeRet ≠ -1 → env.fcntl0Ret ≠ -1 → env.fcntl1Ret = -1 →
      (mainB env).result = some ⟨[], ["fcntl"], EXIT_FAILURE⟩) := by
  refine ⟨fun h1 => ?_, fun h1 h2 => ?_, fun h1 h2 h3 => ?_⟩
  · simp [mainB, h1]
  · simp [mainB, h1, h2]
  · simp [mainB, h1, h2, h3]

/-- C2 witness: a run whose pipe call fails aborts with the pipe diagnostic
and EXIT_FAILURE. -/
theorem c2_selfpipe_setup_failures_fatal_witness :
    (mainB ⟨-1, (3, 4), 0, 0, []⟩).result = some ⟨[], ["pipe"], EXIT_FAILURE⟩ :=
  (c2_selfpipe_setup_failures_fatal ⟨-1, (3, 4), 0, 0, []⟩).1 rfl

/-- C3: one step of the self-pipe poll loop handles each wait outcome exactly
as claimed: a timeout prints the timeout message and exits EXIT_SUCCESS; a
poll error with errno EINTR re-issues the wait with no output and no
termination; a poll error with any other errno aborts with the poll
diagnostic; a positive poll result dispatches to the consume step
handle_signal_B. -/
theorem c3_selfpipe_wait_dispatch (readRet : Int) (rest : List (PollOutcome × Int)) :
    runB ((PollOutcome.timeout, readRet) :: rest) =
      some ⟨["Poll timed out without any signals"], [], EXIT_SUCCESS⟩ ∧
    runB ((PollOutcome.error EINTR, readRet) :: rest) = runB rest ∧
    (∀ e, e ≠ EINTR → runB ((PollOutcome.error e, readRet) :: rest) =
      some ⟨[], ["poll"], EXIT_FAILURE⟩) ∧
    runB ((PollOutcome.ready, readRet) :: rest) =
      (match handle_signal_B readRet with
       | Except.error r => some r
       | Except.ok line => (runB rest).map fun r => ⟨line :: r.out, r.err, r.exitCode⟩) := by
  refine ⟨rfl, by simp [runB], fun e he => by simp [runB, he], rfl⟩

/-- C3 witness: a poll error with errno 5 (not EINTR) is fatal with the poll
diagnostic. -/
theorem c3_selfpipe_wait_dispatch_witness :
    runB [(PollOutcome.error 5, 1)] = some ⟨[], ["poll"], EXIT_FAILURE⟩ :=
  (c3_selfpipe_wait_dispatch 1 []).2.2.1 5 (by decide)

/-- C4: the kernel-signal-queue loop repeats wait-then-consume exactly while
poll reports ready, and any single non-ready outcome, timeout included, ends
the loop and thereby the program (exit status 0), regardless of what the rest
of the schedule holds. -/
theorem c4_signalfd_loop_policy (ev : SigEventA) (rest : List (PollOutcome × SigEventA)) :
    runA ((PollOutcome.ready, ev) :: rest) =
      (match handle_signal_A ev with
       | Except.error r => some r
       | Except.ok line => (runA rest).map fun r => ⟨line :: r.out, r.err, r.exitCode⟩) ∧
    runA ((PollOutcome.timeout, ev) :: rest) = some ⟨[], [], 0⟩ ∧
    (∀ e, runA ((PollOutcome.error e, ev) :: rest) = some ⟨[], [], 0⟩) :=
  ⟨rfl, rfl, fun _ => rfl⟩

/-- C5: the kernel-signal-queue consume step aborts with the read diagnostic
and exit status 1 whenever the read returns anything other than the full
fixed record size, and on a full-size read produces the single output line
holding the numeric signal identifier next to its strsignal name. -/
theorem c5_signalfd_consume_step (ev : SigEventA) :
    (ev.readRet ≠ sizeof_signalfd_siginfo →
      handle_signal_A ev = Except.error ⟨[], ["read"], 1⟩) ∧
    (ev.readRet = sizeof_signalfd_siginfo →
      handle_signal_A ev = Except.ok ("Received signal " ++ toString ev.ssi_signo ++
        " (" ++ strsignal ev.ssi_signo ++ ")")) := by
  constructor
  · intro h; simp [handle_signal_A, h]
  · intro h; simp [handle_signal_A, h]

/-- C5 witness: a short read of 0 bytes aborts, and a full 128-byte read of a
SIGINT record prints the number 2 with its name. -/
theorem c5_signalfd_consume_step_witness :
    handle_signal_A ⟨0, SIGINT⟩ = Except.error ⟨[], ["read"], 1⟩ ∧
    handle_signal_A ⟨128, SIGINT⟩ = Except.ok "Received signal 2 (Interrupt)" := by
  constructor
  · exact (c5_signalfd_consume_step ⟨0, SIGINT⟩).1 (by decide)
  · have h := (c5_signalfd_consume_step ⟨128, SIGINT⟩).2 (by decide)
    rw [h]; rfl

/-- C6: the self-pipe consume step aborts with the read diagnostic and
EXIT_FAILURE for every read count other than exactly one, and on a one-byte
read prints the fixed notification line, which contains no digit and hence no
signal number. -/
theorem c6_selfpipe_consume_step (readRet : Int) :
    (readRet ≠ 1 → handle_signal_B readRet = Except.error ⟨[], ["read"], EXIT_FAILURE⟩) ∧
    handle_signal_B 1 = Except.ok "Received signal" ∧
    ("Received signal".toList.all fun c => !c.isDigit) = true := by
  refine ⟨fun h => by simp [handle_signal_B, h], rfl, by decide⟩

/-- C6 witness: a read count of 0 aborts with the read diagnostic. -/
theorem c6_selfpipe_consume_step_witness :
    handle_signal_B 0 = Except.error ⟨[], ["read"], EXIT_FAILURE⟩ :=
  (c6_selfpipe_consume_step 0).1 (by decide)

/-- C7: the installed self-pipe handler appends exactly the single zero byte
to the pipe when the pipe has room, and when the pipe is full the failed
write is simply dropped: the handler leaves the state unchanged, with no
retry and, by its type, no output, no termination and no error propagation. -/
theorem c7_selfpipe_handler_best_effort (st : PipeState) :
    (st.buffered.length < st.capacity →
      signal_action st = { st with buffered := st.buffered ++ [0] }) ∧
    (st.capacity ≤ st.buffered.length → signal_action st = st) := by
  constructor
  · intro h; simp [signal_action, pipe_write1, h]
  · intro h
    have h2 : ¬ st.buffered.length < st.capacity := by omega
    simp [signal_action, pipe_write1, h2]

/-- C7 witness: with room the handler appends the zero byte; on a full pipe
it changes nothing. -/
theorem c7_selfpipe_handler_best_effort_witness :
    signal_action ⟨[], 1⟩ = ⟨[0], 1⟩ ∧ signal_action ⟨[0], 1⟩ = ⟨[0], 1⟩ := by
  constructor
  · exact (c7_selfpipe_handler_best_effort ⟨[], 1⟩).1 (by decide)
  · exact (c7_selfpipe_handler_best_effort ⟨[0], 1⟩).2 (by decide)

/-- C8: for every count N, a run in which the target signal is delivered N
times (N ready polls, each consuming one well-formed record or byte) followed
by a timeout prints exactly N notification lines in each program; for N = 0
both runs take the timeout termination path with zero notification lines. -/
theorem c8_n_signals_n_lines (N : Nat) (signo : Nat) :
    runB (List.replicate N (PollOutcome.ready, (1 : Int)) ++ [(PollOutcome.timeout, 1)]) =
      some ⟨List.replicate N "Received signal" ++ ["Poll timed out without any signals"],
        [], EXIT_SUCCESS⟩ ∧
    runA (List.replicate N (PollOutcome.ready, ⟨sizeof_signalfd_siginfo, signo⟩) ++
        [(PollOutcome.timeout, ⟨sizeof_signalfd_siginfo, signo⟩)]) =
      some ⟨List.replicate N ("Received signal " ++ toString signo ++ " (" ++
        strsignal signo ++ ")"), [], 0⟩ := by
  induction N with
  | zero => exact ⟨rfl, rfl⟩
  | succ n ih =>
    obtain ⟨ih1, ih2⟩ := ih
    constructor
    · simp [List.replicate_succ, runB, handle_signal_B, ih1]
    · simp [List.replicate_succ, runA, handle_signal_A, ih2]

/-- C9: in the kernel-signal-queue program every non-ready poll outcome is
observationally identical: a timeout and a poll error with any errno (EINTR
included) each end the loop at once with the same result, no output, no
diagnostic and exit status 0, whatever the rest of either schedule holds, so
a wait error cannot be told apart from a clean timeout at the process
interface. -/
theorem c9_signalfd_nonready_indistinguishable (ev ev2 : SigEventA)
    (rest rest2 : List (PollOutcome × SigEventA)) :
    runA ((PollOutcome.timeout, ev) :: rest) = some ⟨[], [], 0⟩ ∧
    (∀ e, runA ((PollOutcome.error e, ev2) :: rest2) =
      runA ((PollOutcome.timeout, ev) :: rest)) :=
  ⟨rfl, fun _ => rfl⟩

/-- C10: in a self-pipe run whose setup calls succeed, the setup history is
exactly: write of the global pipefds pair (by pipe), the two fcntl calls, and
last the handler installation; the pair is written exactly once, the handler
is installed exactly once and after that write, and the write-end descriptor
recorded at installation (the one signal_action uses) is the write end of the
pipe created at setup. -/
theorem c10_selfpipe_handler_install_order (env : EnvB)
    (h1 : env.pipeRet ≠ -1) (h2 : env.fcntl0Ret ≠ -1) (h3 : env.fcntl1Ret ≠ -1) :
    (mainB env).events =
      [SetupEvent.pipefdsWritten env.pipeFds, SetupEvent.fcntlCall env.pipeFds.1,
       SetupEvent.fcntlCall env.pipeFds.2, SetupEvent.handlerInstalled env.pipeFds.2] ∧
    ((mainB env).events.countP isPipefdsWrite) = 1 ∧
    ((mainB env).events.countP isHandlerInstall) = 1 ∧
    (mainB env).events.getLast? = some (SetupEvent.handlerInstalled env.pipeFds.2) := by
  have hev : (mainB env).events =
      [SetupEvent.pipefdsWritten env.pipeFds, SetupEvent.fcntlCall env.pipeFds.1,
       SetupEvent.fcntlCall env.pipeFds.2, SetupEvent.handlerInstalled env.pipeFds.2] := by
    simp [mainB, h1, h2, h3]
  refine ⟨hev, ?_, ?_, ?_⟩ <;>
    simp [hev, List.countP_cons, isPipefdsWrite, isHandlerInstall]

/-- C10 witness: a concrete successful setup produces exactly the claimed
event history. -/
theorem c10_selfpipe_handler_install_order_witness :
    (mainB ⟨0, (3, 4), 0, 0, []⟩).events =
      [SetupEvent.pipefdsWritten (3, 4), SetupEvent.fcntlCall 3,
       SetupEvent.fcntlCall 4, SetupEvent.handlerInstalled 4] :=
  (c10_selfpipe_handler_install_order ⟨0, (3, 4), 0, 0, []⟩
    (by decide) (by decide) (by decide)).1
